import Mathlib

/-!
Verification of the tooltip provider/consumer coordination protocol from
`src/widgets/tooltip.rs` of kayak_ui. Pixel coordinates (`f32` in the
source) are modelled as exact rationals; all inputs appearing in the
claims are exactly representable, and the arithmetic involved
(addition, subtraction, halving, comparison) is exact on them.
-/

namespace KayakTooltip

/-- The shared tooltip state: `TooltipData` in `src/widgets/tooltip.rs`.
One instance per provider scope; consumers read-modify-write it. -/
structure TooltipData where
  /-- The anchor coordinates in pixels (x, y). -/
  anchor : ℚ × ℚ
  /-- The size of the tooltip in pixels (width, height), when explicit. -/
  size : Option (ℚ × ℚ)
  /-- The text to display. -/
  text : String
  /-- Whether the tooltip is visible or not. -/
  visible : Bool
  deriving Repr, DecidableEq

/-- `TooltipData::default()`: anchor (0,0), no size, empty text, hidden. -/
def TooltipData.default : TooltipData :=
  { anchor := (0, 0), size := none, text := "", visible := false }

/-- The consumer props relevant to event handling
(`TooltipConsumerProps` in `src/widgets/tooltip.rs`). -/
structure TooltipConsumerProps where
  /-- Optional fixed anchor; if `none` the tooltip follows the cursor. -/
  anchor : Option (ℚ × ℚ)
  /-- Optional explicit size for the tooltip. -/
  size : Option (ℚ × ℚ)
  /-- The text to display in the tooltip. -/
  text : String
  deriving Repr, DecidableEq

/-- The pointer event types the consumer's handler matches on
(`EventType::MouseIn`, `EventType::Hover`, `EventType::MouseOut`, and the
catch-all `_` arm). A hover event carries `ctx.last_mouse_position()`. -/
inductive EventType where
  | mouseIn
  | hover (lastMousePosition : ℚ × ℚ)
  | mouseOut
  | other
  deriving Repr, DecidableEq

/-- The consumer's event handler, `TooltipConsumer`'s `on_event` closure
(lines 249-270 of `src/widgets/tooltip.rs`), as a state transformer on the
shared `TooltipData`:
* `MouseIn`: `state.visible = true; state.text = (*text).clone(); state.size = size`
* `Hover`: `state.anchor = anchor.unwrap_or(ctx.last_mouse_position())`
* `MouseOut`: `state.visible = false || state.text != *text`
* any other event: no write. -/
def handleEvent (props : TooltipConsumerProps) (event : EventType)
    (state : TooltipData) : TooltipData :=
  match event with
  | .mouseIn =>
      { state with visible := true, text := props.text, size := props.size }
  | .hover pos =>
      { state with anchor := props.anchor.getD pos }
  | .mouseOut =>
      { state with visible := (false || (state.text != props.text)) }
  | .other => state

/-- Apply a sequence of events from one consumer, in dispatch order
(the framework delivers events one at a time; each read-modify-write
completes before the next event). -/
def runEvents (props : TooltipConsumerProps) (events : List EventType)
    (state : TooltipData) : TooltipData :=
  events.foldl (fun s e => handleEvent props e s) state

/-- `const WIDTH: f32 = 150.0` in `TooltipProvider`. -/
def WIDTH : ℚ := 150

/-- `const HEIGHT: f32 = 18.0` in `TooltipProvider`. -/
def HEIGHT : ℚ := 18

/-- `const PADDING: (f32, f32) = (10.0, 5.0)` in `TooltipProvider`. -/
def PADDING : ℚ × ℚ := (10, 5)

/-- `tooltip_size.unwrap_or((WIDTH, HEIGHT))`: the box dimensions the
provider uses for the overlay, from the optional `state.size`. -/
def providerTooltipSize (stateSize : Option (ℚ × ℚ)) : ℚ × ℚ :=
  stateSize.getD (WIDTH, HEIGHT)

/-- Horizontal placement (lines 151-156): left edge of the tooltip given
the state anchor, the provider's size and the tooltip box size. -/
def tooltipLeft (anchor providerSize tooltipSize : ℚ × ℚ) : ℚ :=
  if anchor.1 < providerSize.1 / 2 then anchor.1 + PADDING.1
  else anchor.1 - tooltipSize.1

/-- Vertical placement (lines 158-163): top edge of the tooltip given
the state anchor, the provider's size and the tooltip box size. -/
def tooltipTop (anchor providerSize tooltipSize : ℚ × ℚ) : ℚ :=
  if anchor.2 < providerSize.2 / 2 then anchor.2 + PADDING.2
  else anchor.2 - tooltipSize.2

/-- Modelled from the spec: the context mechanism
(`context.create_consumer::<TooltipData>()`) is framework code not under
`src/`; per the spec it returns a handle that "fails (returns empty) if no
ancestor provider exists". We model the lookup as a function of the
nearest ancestor provider's published state, if any. -/
def createConsumer (ancestorProviderState : Option TooltipData) :
    Option TooltipData :=
  ancestorProviderState

/-- `.expect("TooltipConsumer requires TooltipProvider as an ancestor")`
(line 246): Rust's `Option::expect` aborts with the message on `None`;
we model the abort as the error branch of `Except`. -/
def expectHandle (handle : Option TooltipData) : Except String TooltipData :=
  match handle with
  | some d => .ok d
  | none => .error "TooltipConsumer requires TooltipProvider as an ancestor"

/-- Construction of a `TooltipConsumer` (lines 244-246): look up the
context, then `expect` the handle. -/
def tooltipConsumerConstruct (ancestorProviderState : Option TooltipData) :
    Except String TooltipData :=
  expectHandle (createConsumer ancestorProviderState)

/-- Folding any list of hover events over the state changes neither the
text, nor the visibility, nor the size. -/
theorem hovers_preserve (props : TooltipConsumerProps) :
    ∀ (positions : List (ℚ × ℚ)) (t : TooltipData),
      (runEvents props (positions.map .hover) t).text = t.text ∧
      (runEvents props (positions.map .hover) t).visible = t.visible ∧
      (runEvents props (positions.map .hover) t).size = t.size := by
  intro positions
  induction positions with
  | nil => intro t; exact ⟨rfl, rfl, rfl⟩
  | cons p ps ih =>
      intro t
      have h := ih (handleEvent props (.hover p) t)
      simpa [runEvents, handleEvent] using h

/-- With a fixed anchor configured, folding a nonempty list of hover
events leaves the state's anchor at the fixed anchor. -/
theorem hovers_anchor_fixed (props : TooltipConsumerProps) (fixed : ℚ × ℚ)
    (hfix : props.anchor = some fixed) :
    ∀ (positions : List (ℚ × ℚ)) (t : TooltipData), positions ≠ [] →
      (runEvents props (positions.map .hover) t).anchor = fixed := by
  intro positions
  induction positions with
  | nil => intro t h; exact absurd rfl h
  | cons p ps ih =>
      intro t _
      by_cases hps : ps = []
      · subst hps
        simp [runEvents, handleEvent, hfix]
      · have h := ih (handleEvent props (.hover p) t) hps
        simpa [runEvents] using h

/-- Claim C1: on a pointer-leave (MouseOut) event handled by a consumer
with text `T`, the state's `visible` field is written to
`false || (state.text != T)`; after the write, `visible` is `false`
exactly when the state's text equals `T` and `true` exactly when it
differs, for every state (no other condition affects the update). -/
theorem C1_mouseOut_visible (props : TooltipConsumerProps) (s : TooltipData) :
    (handleEvent props .mouseOut s).visible = (false || (s.text != props.text)) ∧
    ((handleEvent props .mouseOut s).visible = false ↔ s.text = props.text) ∧
    ((handleEvent props .mouseOut s).visible = true ↔ s.text ≠ props.text) := by
  refine ⟨rfl, ?_, ?_⟩ <;> simp [handleEvent]

/-- Claim C2: for consumers `a` and `b` with distinct texts sharing one
provider state, the sequence (a enters, b enters, a leaves) from any
initial state ends visible with b's text. -/
theorem C2_claim_then_leave (a b : TooltipConsumerProps) (s : TooltipData)
    (hab : a.text ≠ b.text) :
    (handleEvent a .mouseOut
      (handleEvent b .mouseIn (handleEvent a .mouseIn s))).visible = true ∧
    (handleEvent a .mouseOut
      (handleEvent b .mouseIn (handleEvent a .mouseIn s))).text = b.text := by
  simp [handleEvent]
  exact fun h => hab h.symm

/-- Witness for C2 at the concrete consumers "A" and "B" and the default
initial state. -/
theorem C2_claim_then_leave_witness :
    ((⟨none, none, "A"⟩ : TooltipConsumerProps).text ≠
       (⟨none, none, "B"⟩ : TooltipConsumerProps).text) ∧
    ((handleEvent ⟨none, none, "A"⟩ .mouseOut
        (handleEvent ⟨none, none, "B"⟩ .mouseIn
          (handleEvent ⟨none, none, "A"⟩ .mouseIn TooltipData.default))).visible = true ∧
     (handleEvent ⟨none, none, "A"⟩ .mouseOut
        (handleEvent ⟨none, none, "B"⟩ .mouseIn
          (handleEvent ⟨none, none, "A"⟩ .mouseIn TooltipData.default))).text =
       (⟨none, none, "B"⟩ : TooltipConsumerProps).text) :=
  ⟨by decide, C2_claim_then_leave _ _ TooltipData.default (by decide)⟩

/-- Claim C3: for every N and every initial state, one consumer's
enter, then N hovers (at arbitrary pointer positions), then leave
yields a final state with `visible = false` and `text` equal to that
consumer's text. -/
theorem C3_enter_hovers_leave (props : TooltipConsumerProps)
    (positions : List (ℚ × ℚ)) (s : TooltipData) :
    (runEvents props
        ([EventType.mouseIn] ++ positions.map EventType.hover ++ [EventType.mouseOut])
        s).visible = false ∧
    (runEvents props
        ([EventType.mouseIn] ++ positions.map EventType.hover ++ [EventType.mouseOut])
        s).text = props.text := by
  have h := hovers_preserve props positions (handleEvent props .mouseIn s)
  have htext :
      (runEvents props (positions.map .hover) (handleEvent props .mouseIn s)).text =
        props.text := by
    rw [h.1]; rfl
  have hsplit :
      runEvents props
          ([EventType.mouseIn] ++ positions.map EventType.hover ++ [EventType.mouseOut]) s =
        handleEvent props .mouseOut
          (runEvents props (positions.map .hover) (handleEvent props .mouseIn s)) := by
    simp only [runEvents, List.foldl_append, List.foldl_cons, List.foldl_nil]
  rw [hsplit]
  have hv :
      (handleEvent props .mouseOut
          (runEvents props (positions.map .hover) (handleEvent props .mouseIn s))).visible =
        ((runEvents props (positions.map .hover)
            (handleEvent props .mouseIn s)).text != props.text) := rfl
  have ht :
      (handleEvent props .mouseOut
          (runEvents props (positions.map .hover) (handleEvent props .mouseIn s))).text =
        (runEvents props (positions.map .hover) (handleEvent props .mouseIn s)).text := rfl
  refine ⟨?_, ?_⟩
  · rw [hv, htext]; simp
  · rw [ht, htext]

/-- Claim C4 counterexample: at anchor (50,50) with provider size
(200,100) and the default tooltip size, the computed top edge is not 55:
the vertical condition `50 < 100 / 2` is false (50 is not strictly in the
top half), so the bottom branch gives `50 - 18 = 32`. -/
theorem C4_counterexample :
    tooltipTop (50, 50) (200, 100) (providerTooltipSize none) ≠ 55 := by
  norm_num [tooltipTop, providerTooltipSize, PADDING, HEIGHT, WIDTH]

/-- Claim C4 as amended: with provider size (200,100) and the default
tooltip size (150,18) with padding (10,5), the placement computation
yields left = 60 and top = 32 for anchor (50,50), and left = 0 and
top = 62 for anchor (150,80). -/
theorem C4_amended_placement :
    tooltipLeft (50, 50) (200, 100) (providerTooltipSize none) = 60 ∧
    tooltipTop (50, 50) (200, 100) (providerTooltipSize none) = 32 ∧
    tooltipLeft (150, 80) (200, 100) (providerTooltipSize none) = 0 ∧
    tooltipTop (150, 80) (200, 100) (providerTooltipSize none) = 62 := by
  refine ⟨?_, ?_, ?_, ?_⟩ <;>
    norm_num [tooltipLeft, tooltipTop, providerTooltipSize, PADDING, HEIGHT, WIDTH]

/-- Claim C5: for every anchor, provider size and tooltip size, the left
edge is `anchor.x + 10` when `anchor.x < size.x / 2` and
`anchor.x - tooltip_width` otherwise; the top edge is `anchor.y + 5`
when `anchor.y < size.y / 2` and `anchor.y - tooltip_height` otherwise. -/
theorem C5_placement_rule (anchor providerSize tooltipSize : ℚ × ℚ) :
    tooltipLeft anchor providerSize tooltipSize =
      (if anchor.1 < providerSize.1 / 2 then anchor.1 + 10
       else anchor.1 - tooltipSize.1) ∧
    tooltipTop anchor providerSize tooltipSize =
      (if anchor.2 < providerSize.2 / 2 then anchor.2 + 5
       else anchor.2 - tooltipSize.2) := by
  constructor <;> simp [tooltipLeft, tooltipTop, PADDING]

/-- Claim C6: on each render the tooltip box dimensions equal the
state's size when present and the fixed default (150, 18) when absent. -/
theorem C6_box_size (sz : ℚ × ℚ) :
    providerTooltipSize (some sz) = sz ∧
    providerTooltipSize none = (150, 18) := by
  constructor <;> simp [providerTooltipSize, WIDTH, HEIGHT]

/-- Claim C7: every hover handled by a consumer sets the anchor to the
configured fixed anchor when present and to the current pointer position
otherwise; with a fixed anchor configured, the anchor equals that fixed
value after any nonempty sequence of hovers, regardless of positions. -/
theorem C7_hover_anchor (props q : TooltipConsumerProps) (p fixed : ℚ × ℚ)
    (t s : TooltipData) (positions : List (ℚ × ℚ))
    (hfix : props.anchor = some fixed) (hne : positions ≠ []) :
    (handleEvent q (.hover p) t).anchor = q.anchor.getD p ∧
    (runEvents props (positions.map .hover) s).anchor = fixed :=
  ⟨rfl, hovers_anchor_fixed props fixed hfix positions s hne⟩

/-- Witness for C7: a consumer with fixed anchor (7,8) hovered at
positions (1,2) then (3,4) leaves the anchor at (7,8); a consumer with no
fixed anchor hovered at (9,9) sets the anchor to (9,9). -/
theorem C7_hover_anchor_witness :
    ((⟨some (7, 8), none, "A"⟩ : TooltipConsumerProps).anchor = some (7, 8)) ∧
    ([((1 : ℚ), (2 : ℚ)), (3, 4)] ≠ ([] : List (ℚ × ℚ))) ∧
    ((handleEvent ⟨none, none, "B"⟩ (.hover (9, 9)) TooltipData.default).anchor =
        (⟨none, none, "B"⟩ : TooltipConsumerProps).anchor.getD (9, 9) ∧
     (runEvents ⟨some (7, 8), none, "A"⟩
        ([((1 : ℚ), (2 : ℚ)), (3, 4)].map .hover) TooltipData.default).anchor = (7, 8)) :=
  ⟨by decide, by decide,
    C7_hover_anchor ⟨some (7, 8), none, "A"⟩ ⟨none, none, "B"⟩ (9, 9) (7, 8)
      TooltipData.default TooltipData.default [((1 : ℚ), (2 : ℚ)), (3, 4)]
      (by decide) (by decide)⟩

/-- Claim C8: constructing a `TooltipConsumer` with no provider ancestor
(context lookup empty) fails deterministically with the fatal message,
and succeeds exactly when an ancestor provider exists. -/
theorem C8_requires_provider (d : TooltipData) :
    tooltipConsumerConstruct none =
      .error "TooltipConsumer requires TooltipProvider as an ancestor" ∧
    tooltipConsumerConstruct (some d) = .ok d :=
  ⟨rfl, rfl⟩

/-- Claim C9 counterexample: a MouseOut handled by consumer "A" on a
state with `visible = false` and `text = "B"` sets `visible = true`
(`false || ("B" != "A")`), so a pointer-leave can flip `visible` from
false to true when the texts differ. -/
theorem C9_counterexample :
    ({ anchor := (0, 0), size := none, text := "B", visible := false } :
        TooltipData).visible = false ∧
    (handleEvent ⟨none, none, "A"⟩ .mouseOut
      { anchor := (0, 0), size := none, text := "B", visible := false }).visible =
      true := by
  exact ⟨rfl, by decide⟩

/-- Claim C9 as amended: a pointer-leave never changes `visible` from
false to true when the state's text equals the consumer's text: for
every consumer and every state with `visible = false` whose text equals
the consumer's text, the state after the leave handler still has
`visible = false`. -/
theorem C9_amended_leave_keeps_hidden (props : TooltipConsumerProps)
    (s : TooltipData) (_hvis : s.visible = false) (htext : s.text = props.text) :
    (handleEvent props .mouseOut s).visible = false := by
  simp [handleEvent, htext]

/-- Witness for the amended C9 at the default state and a consumer with
empty text. -/
theorem C9_amended_witness :
    TooltipData.default.visible = false ∧
    TooltipData.default.text = (⟨none, none, ""⟩ : TooltipConsumerProps).text ∧
    (handleEvent ⟨none, none, ""⟩ .mouseOut TooltipData.default).visible = false :=
  ⟨by decide, by decide,
    C9_amended_leave_keeps_hidden ⟨none, none, ""⟩ TooltipData.default
      (by decide) (by decide)⟩

/-- Claim C10: each handler writes only its designated fields:
pointer-enter preserves the anchor; pointer-hover preserves visibility,
text and size; pointer-leave preserves the anchor, text and size; any
other event leaves the state unchanged. -/
theorem C10_frame_conditions (props : TooltipConsumerProps) (pos : ℚ × ℚ)
    (s : TooltipData) :
    (handleEvent props .mouseIn s).anchor = s.anchor ∧
    (handleEvent props (.hover pos) s).visible = s.visible ∧
    (handleEvent props (.hover pos) s).text = s.text ∧
    (handleEvent props (.hover pos) s).size = s.size ∧
    (handleEvent props .mouseOut s).anchor = s.anchor ∧
    (handleEvent props .mouseOut s).text = s.text ∧
    (handleEvent props .mouseOut s).size = s.size ∧
    handleEvent props .other s = s :=
  ⟨rfl, rfl, rfl, rfl, rfl, rfl, rfl, rfl⟩

end KayakTooltip
